import Mathlib

/-!
Shallow embedding of `src/utils/custom-scripts.js` of swift-docc-render:
the custom-script dispatch policy (manifest loading, trigger classification,
static script-element injection, dynamic import execution).

The network fetch of `custom-scripts.json` is external input; it is modelled
as an explicit `FetchResponse` argument.  The JavaScript event-loop semantics
relevant here are modelled explicitly: a synchronous executor called from
`Array.prototype.forEach` can throw (aborting the loop and rejecting the
surrounding async function), while an async executor called from `forEach`
returns a promise that `forEach` discards — its body runs synchronously up to
its first `await`, and its completion or rejection happens after `forEach`
(and the surrounding dispatch call) has already returned.
-/

namespace CustomScripts

/-- One entry of `custom-scripts.json`. JavaScript own-property presence is
modelled with `Option`: `has(obj, p)` is `Option.isSome` of the field. Fields
are typed per the manifest schema (`url`/`name`/`type`/`integrity` strings,
`async`/`defer` booleans, `run` one of the trigger strings). -/
structure CustomScript where
  run : Option String := none
  url : Option String := none
  name : Option String := none
  type : Option String := none
  async : Option Bool := none
  defer : Option Bool := none
  integrity : Option String := none
  deriving Repr, DecidableEq

/-- A JavaScript `Error`: it carries its message. The spec's taxonomy names
(`ManifestFormatError`, `ScriptSourceError`) classify these by message. -/
structure Err where
  message : String
  deriving Repr, DecidableEq

/-- Message of the error thrown when an entry has both `url` and `name`
(thrown by `mustNotHave` in `addScriptElement` and `importScript`). -/
def bothMessage : String := "Custom script cannot have both `url` and `name`."

/-- Message of the error thrown when an entry has neither `url` nor `name`. -/
def neitherMessage : String := "Custom script has neither a `url` nor a `name` property."

/-- Message of the error thrown when the manifest body is not an array. -/
def manifestMessage : String := "Content of custom-scripts.json should be an array."

/-- The spec's `ScriptSourceError` classification: an error raised because an
entry has zero or two of url/name. -/
def IsScriptSourceError (e : Err) : Prop :=
  e.message = bothMessage ∨ e.message = neitherMessage

/-- The spec's `ManifestFormatError` classification. -/
def IsManifestFormatError (e : Err) : Prop :=
  e.message = manifestMessage

/-- Predicate `shouldRunOnPageLoad` from the source:
`!has(customScript, 'run') || customScript.run === Run.onLoad
  || customScript.run === Run.onLoadAndNavigate`. -/
def shouldRunOnPageLoad (customScript : CustomScript) : Bool :=
  !customScript.run.isSome
    || customScript.run == some "on-load" || customScript.run == some "on-load-and-navigate"

/-- Predicate `shouldRunOnNavigate` from the source:
`has(customScript, 'run') && (customScript.run === Run.onNavigate
  || customScript.run === Run.onLoadAndNavigate)`. -/
def shouldRunOnNavigate (customScript : CustomScript) : Bool :=
  customScript.run.isSome
    && (customScript.run == some "on-navigate" || customScript.run == some "on-load-and-navigate")

/-- JavaScript `s.slice(-3)`: the last `min 3 (length s)` characters. -/
def sliceLast3 (s : String) : String :=
  ⟨s.data.drop (s.data.length - 3)⟩

/-- Joining URL path components with `/` separators. -/
def joinPath : List String → String
  | [] => ""
  | [p] => p
  | p :: q :: rest => p ++ "/" ++ joinPath (q :: rest)

/-- Modelled from the spec: `resolveAbsoluteUrl` lives in
`docc-render/utils/url-helper`, which is not part of the supplied source.
Per the spec, "the resolved URL is the concatenation of a configured base
path" and the given path components; the configured base path is passed here
as the explicit parameter `baseURL`. -/
def resolveAbsoluteUrl (baseURL : String) (parts : List String) : String :=
  baseURL ++ joinPath parts

/-- Function `urlGivenScriptName` from the source: append `.js` when `slice(-3)` of the
name is not `.js`, then resolve `['', 'custom-scripts', nameWithExtension]`
against the base URL. -/
def urlGivenScriptName (baseURL : String) (customScriptName : String) : String :=
  let scriptNameWithExtension :=
    if sliceLast3 customScriptName ≠ ".js" then customScriptName ++ ".js"
    else customScriptName
  resolveAbsoluteUrl baseURL ["", "custom-scripts", scriptNameWithExtension]

/-- An `HTMLScriptElement` as built by `document.createElement('script')` and
subsequent property assignments. `none` means the property was never assigned
(left at the platform default). -/
structure ScriptElement where
  src : Option String := none
  type : Option String := none
  async : Option Bool := none
  defer : Option Bool := none
  integrity : Option String := none
  crossOrigin : Option String := none
  deriving Repr, DecidableEq

/-- Modelled from the spec: `copyPropertyIfPresent('type', customScript,
scriptElement)` from `docc-render/utils/object-properties` (not in the
supplied source) copies the property when the source object has it. -/
def copyTypeIfPresent (customScript : CustomScript) (el : ScriptElement) : ScriptElement :=
  match customScript.type with
  | some t => { el with type := some t }
  | none => el

/-- Modelled from the spec: `copyPresentProperties(['defer', 'integrity'],
customScript, scriptElement)` copies each of the listed properties that the
source object has. -/
def copyDeferIntegrityIfPresent (customScript : CustomScript) (el : ScriptElement) :
    ScriptElement :=
  let el :=
    match customScript.defer with
    | some d => { el with defer := some d }
    | none => el
  match customScript.integrity with
  | some i => { el with integrity := some i }
  | none => el

/-- Function `addScriptElement` from the source, as the element it appends to
`document.head` (or the error it throws). `mustNotHave` (from
`object-properties`, modelled from the spec) throws when the named property is
present. -/
def addScriptElement (baseURL : String) (customScript : CustomScript) :
    Except Err ScriptElement :=
  let scriptElement := copyTypeIfPresent customScript {}
  match customScript.url with
  | some u =>
    match customScript.name with
    | some _ => .error ⟨bothMessage⟩
    | none =>
      let scriptElement := { scriptElement with src := some u }
      -- `scriptElement.async = customScript.async || false`
      let scriptElement := { scriptElement with async := some (customScript.async.getD false) }
      let scriptElement := copyDeferIntegrityIfPresent customScript scriptElement
      -- If `integrity` is set on an external script, then CORS must be enabled as well.
      if customScript.integrity.isSome then
        .ok { scriptElement with crossOrigin := some "anonymous" }
      else
        .ok scriptElement
  | none =>
    match customScript.name with
    | some n =>
      let scriptElement := { scriptElement with src := some (urlGivenScriptName baseURL n) }
      let scriptElement := { scriptElement with async := some (customScript.async.getD false) }
      let scriptElement := copyDeferIntegrityIfPresent customScript scriptElement
      .ok scriptElement
    | none => .error ⟨neitherMessage⟩

/-- Observable happenings of a dispatch cycle. -/
inductive Event where
  /-- A script element was appended to `document.head`. -/
  | appended (el : ScriptElement)
  /-- A dynamic `import(url)` was initiated. -/
  | importStarted (url : String)
  /-- A dynamic `import(url)` finished loading and running. -/
  | importCompleted (url : String)
  deriving Repr, DecidableEq

instance {ε α : Type} [DecidableEq ε] [DecidableEq α] : DecidableEq (Except ε α) := fun x y =>
  match x, y with
  | .ok a, .ok b => if h : a = b then .isTrue (by rw [h]) else .isFalse (by simp [h])
  | .error a, .error b => if h : a = b then .isTrue (by rw [h]) else .isFalse (by simp [h])
  | .ok _, .error _ => .isFalse (by simp)
  | .error _, .ok _ => .isFalse (by simp)

/-- What calling an executor from `forEach` does, under JavaScript semantics.
A synchronous function either throws or performs its effects before
returning.  An async function runs synchronously up to its first `await`
(producing `startEvents` and a promise) and the rest of its behaviour — the
events up to and including its settlement, with its outcome — happens later,
in `continuation`; `forEach` discards the promise, so the caller never
observes `continuation`. -/
inductive ExecStep where
  | sync (result : Except Err (List Event))
  | promise (startEvents : List Event) (continuation : Except Err (List Event))
  deriving Repr, DecidableEq

/-- The events an `ExecStep` performs synchronously, before control returns to
`forEach`. -/
def ExecStep.startEvents : ExecStep → List Event
  | .sync (.ok evs) => evs
  | .sync (.error _) => []
  | .promise evs _ => evs

/-- How an `ExecStep`'s asynchronous remainder settles (for a synchronous
step, there is no remainder and its result stands in for it). -/
def ExecStep.continuation : ExecStep → Except Err (List Event)
  | .sync r => r
  | .promise _ r => r

/-- Test for a dynamic-import completion event. -/
def Event.isImportCompleted : Event → Bool
  | .importCompleted _ => true
  | _ => false

/-- Executor view of `addScriptElement`: the synchronous executor passed to
`runCustomScripts`: it throws, or appends one element. -/
def addScriptElementStep (baseURL : String) (customScript : CustomScript) : ExecStep :=
  .sync ((addScriptElement baseURL customScript).map fun el => [.appended el])

/-- Function `importScript` from the source, under JavaScript async-function semantics:
its body runs synchronously up to the first `await`.  With both `url` and
`name`, `mustNotHave` throws, so the returned promise rejects having started
nothing; with exactly one source, the dynamic `import()` is initiated
synchronously and the promise resolves once the import completes; with
neither, the `throw` rejects the returned promise. -/
def importScript (baseURL : String) (customScript : CustomScript) : ExecStep :=
  match customScript.url with
  | some u =>
    match customScript.name with
    | some _ => .promise [] (.error ⟨bothMessage⟩)
    | none => .promise [.importStarted u] (.ok [.importCompleted u])
  | none =>
    match customScript.name with
    | some n =>
      let u := urlGivenScriptName baseURL n
      .promise [.importStarted u] (.ok [.importCompleted u])
    | none => .promise [] (.error ⟨neitherMessage⟩)

/-- The outcome of one dispatch invocation (`runCustomScripts` and its two
wrappers): how its returned promise settles (`result`), the events that
happen before it settles (`events`), and the discarded per-entry promise
continuations that settle only afterwards, unobserved by the caller
(`pending`), in manifest order. -/
structure DispatchResult where
  result : Except Err Unit
  events : List Event
  pending : List (Except Err (List Event))
  deriving Repr, DecidableEq

/-- JavaScript `Array.prototype.forEach(executor)` under JavaScript semantics: each
callback return value is discarded.  A synchronous throw propagates out of
`forEach`, aborting the iteration; a returned promise is discarded, its
continuation left to settle later, and iteration continues. -/
def forEachJS (f : CustomScript → ExecStep) : List CustomScript → DispatchResult
  | [] => ⟨.ok (), [], []⟩
  | c :: rest =>
    match f c with
    | .sync (.error e) => ⟨.error e, [], []⟩
    | .sync (.ok evs) =>
      let r := forEachJS f rest
      ⟨r.result, evs ++ r.events, r.pending⟩
    | .promise startEvs later =>
      let r := forEachJS f rest
      ⟨r.result, startEvs ++ r.events, later :: r.pending⟩

/-- The parsed JSON body of `custom-scripts.json`: `Array.isArray` either
holds of it or not. -/
inductive ManifestBody where
  | arr (entries : List CustomScript)
  | nonArray
  deriving Repr, DecidableEq

/-- The fetch of the manifest path, as seen through `response.ok` and
`response.json()`. -/
inductive FetchResponse where
  | notOk
  | okWith (body : ManifestBody)
  deriving Repr, DecidableEq

/-- Function `runCustomScripts` from the source: fetch the manifest (here: consume the
given response); on a not-ok response fail silently; on a non-array body
throw; otherwise `customScripts.filter(predicate).forEach(executor)`. -/
def runCustomScripts (predicate : CustomScript → Bool) (executor : CustomScript → ExecStep) :
    FetchResponse → DispatchResult
  | .notOk => ⟨.ok (), [], []⟩
  | .okWith .nonArray => ⟨.error ⟨manifestMessage⟩, [], []⟩
  | .okWith (.arr customScripts) => forEachJS executor (customScripts.filter predicate)

/-- Function `runCustomPageLoadScripts` from the source. -/
def runCustomPageLoadScripts (baseURL : String) (response : FetchResponse) : DispatchResult :=
  runCustomScripts shouldRunOnPageLoad (addScriptElementStep baseURL) response

/-- Function `runCustomNavigateScripts` from the source. -/
def runCustomNavigateScripts (baseURL : String) (response : FetchResponse) : DispatchResult :=
  runCustomScripts shouldRunOnNavigate (importScript baseURL) response

/-! ## Projection facts about the attribute-copy helpers -/

@[simp]
theorem copyTypeIfPresent_async (c : CustomScript) (el : ScriptElement) :
    (copyTypeIfPresent c el).async = el.async := by
  unfold copyTypeIfPresent; split <;> rfl

@[simp]
theorem copyTypeIfPresent_crossOrigin (c : CustomScript) (el : ScriptElement) :
    (copyTypeIfPresent c el).crossOrigin = el.crossOrigin := by
  unfold copyTypeIfPresent; split <;> rfl

@[simp]
theorem copyDeferIntegrityIfPresent_async (c : CustomScript) (el : ScriptElement) :
    (copyDeferIntegrityIfPresent c el).async = el.async := by
  unfold copyDeferIntegrityIfPresent; split <;> split <;> rfl

@[simp]
theorem copyDeferIntegrityIfPresent_crossOrigin (c : CustomScript) (el : ScriptElement) :
    (copyDeferIntegrityIfPresent c el).crossOrigin = el.crossOrigin := by
  unfold copyDeferIntegrityIfPresent; split <;> split <;> rfl

/-! ## Claim theorems -/

/-- C5: `shouldRunOnPageLoad` holds exactly of entries whose `run` is absent
or equals `on-load` or `on-load-and-navigate`; `shouldRunOnNavigate` holds
exactly of entries whose `run` is present and equals `on-navigate` or
`on-load-and-navigate`, and of no other entry. Both predicates are Lean
functions, hence pure and side-effect-free. -/
theorem run_trigger_classification (c : CustomScript) :
    (shouldRunOnPageLoad c = true ↔
      c.run = none ∨ c.run = some "on-load" ∨ c.run = some "on-load-and-navigate")
    ∧ (shouldRunOnNavigate c = true ↔
      c.run = some "on-navigate" ∨ c.run = some "on-load-and-navigate") := by
  cases h : c.run <;> simp [shouldRunOnPageLoad, shouldRunOnNavigate, h]

/-- C7: when the fetch of the manifest path reports that the resource does
not exist (`response.ok` false), both dispatch operations resolve with no
entries executed (no events, nothing pending) and no error raised. -/
theorem manifest_absent_silent (baseURL : String) :
    runCustomPageLoadScripts baseURL .notOk = ⟨.ok (), [], []⟩
    ∧ runCustomNavigateScripts baseURL .notOk = ⟨.ok (), [], []⟩ :=
  ⟨rfl, rfl⟩

/-- C8: when the manifest resource exists but its parsed JSON body is not an
array, both dispatch operations reject with the `ManifestFormatError`, before
executing any entry (no events, nothing pending), and that error is the
settled result of the dispatch call, hence propagated to the caller. -/
theorem manifest_nonArray_error (baseURL : String) :
    runCustomPageLoadScripts baseURL (.okWith .nonArray)
        = ⟨.error ⟨manifestMessage⟩, [], []⟩
    ∧ runCustomNavigateScripts baseURL (.okWith .nonArray)
        = ⟨.error ⟨manifestMessage⟩, [], []⟩
    ∧ IsManifestFormatError ⟨manifestMessage⟩ :=
  ⟨rfl, rfl, rfl⟩

/-- C9: every script element constructed by `addScriptElement` (in the `url`
branch as well as in the `name` branch) has its `async` property explicitly
assigned — to the entry's `async` value when set, and to `false` otherwise —
never left at the unset platform default. -/
theorem async_always_explicit (baseURL : String) (c : CustomScript) (el : ScriptElement)
    (h : addScriptElement baseURL c = .ok el) :
    el.async = some (c.async.getD false) := by
  cases hu : c.url <;> cases hn : c.name <;> cases hi : c.integrity <;>
      simp [addScriptElement, hu, hn, hi] at h <;>
    simp [← h]

/-- Witness for `async_always_explicit`: the entry with only `name := "a"`
(and no explicit `async`) yields an element whose `async` is explicitly
`some false`. -/
theorem async_always_explicit_witness :
    ({ src := some "/base/custom-scripts/a.js", async := some false } : ScriptElement).async
      = some false :=
  async_always_explicit "/base" { name := some "a" }
    { src := some "/base/custom-scripts/a.js", async := some false } rfl

/-- Counterexample to C1: the entry with `name := "a"` and an `integrity`
value goes through the static-injection path successfully, yet the
constructed script element's cross-origin credentials mode is left unset —
not set to `anonymous`. Only the `url` branch of `addScriptElement` sets
`crossOrigin`. -/
theorem integrity_crossOrigin_name_counterexample :
    addScriptElement "/base" { name := some "a", integrity := some "sha384-x" }
      = .ok { src := some "/base/custom-scripts/a.js", async := some false,
              integrity := some "sha384-x" }
    ∧ ({ src := some "/base/custom-scripts/a.js", async := some false,
         integrity := some "sha384-x" } : ScriptElement).crossOrigin ≠ some "anonymous" :=
  ⟨rfl, by decide⟩

/-- C1 (amended): for an entry dispatched via static injection, the
constructed script element's cross-origin credentials mode is `anonymous`
exactly when the entry's source is given by `url` and `integrity` is present;
in the `name` branch (and whenever `integrity` is absent) `crossOrigin` is
left unset. -/
theorem integrity_crossOrigin_amended (baseURL : String) (c : CustomScript)
    (el : ScriptElement) (h : addScriptElement baseURL c = .ok el) :
    el.crossOrigin = if c.url.isSome && c.integrity.isSome then some "anonymous" else none := by
  cases hu : c.url <;> cases hn : c.name <;> cases hi : c.integrity <;>
      simp [addScriptElement, hu, hn, hi] at h <;>
    simp [← h, hu, hi]

/-- Witness for `integrity_crossOrigin_amended`: an entry with a `url` source
and an `integrity` value yields an element whose `crossOrigin` is
`anonymous`. -/
theorem integrity_crossOrigin_amended_witness :
    ({ src := some "https://example.com/s.js", async := some false,
       integrity := some "sha384-x", crossOrigin := some "anonymous" } : ScriptElement).crossOrigin
      = some "anonymous" :=
  integrity_crossOrigin_amended "/base"
    { url := some "https://example.com/s.js", integrity := some "sha384-x" }
    { src := some "https://example.com/s.js", async := some false,
      integrity := some "sha384-x", crossOrigin := some "anonymous" } rfl

/-- C10: an entry whose `run` property is present but equals none of the
three recognized trigger values fails both classification predicates, so
both dispatch operations silently skip it — they resolve successfully with
no events, nothing pending and no error — rather than reject it as
invalid. -/
theorem unrecognized_run_silently_skipped (baseURL : String) (c : CustomScript) (s : String)
    (hs : c.run = some s) (h1 : s ≠ "on-load") (h2 : s ≠ "on-load-and-navigate")
    (h3 : s ≠ "on-navigate") :
    shouldRunOnPageLoad c = false ∧ shouldRunOnNavigate c = false
    ∧ runCustomPageLoadScripts baseURL (.okWith (.arr [c])) = ⟨.ok (), [], []⟩
    ∧ runCustomNavigateScripts baseURL (.okWith (.arr [c])) = ⟨.ok (), [], []⟩ := by
  have hp : shouldRunOnPageLoad c = false := by simp [shouldRunOnPageLoad, hs, h1, h2]
  have hn : shouldRunOnNavigate c = false := by simp [shouldRunOnNavigate, hs, h2, h3]
  refine ⟨hp, hn, ?_, ?_⟩
  · simp [runCustomPageLoadScripts, runCustomScripts, List.filter_cons, hp, forEachJS]
  · simp [runCustomNavigateScripts, runCustomScripts, List.filter_cons, hn, forEachJS]

/-- Witness for `unrecognized_run_silently_skipped`: the entry with
`run := "sometimes"` is skipped by both dispatch operations. -/
theorem unrecognized_run_silently_skipped_witness :
    shouldRunOnPageLoad { run := some "sometimes", name := some "a" } = false
    ∧ shouldRunOnNavigate { run := some "sometimes", name := some "a" } = false
    ∧ runCustomPageLoadScripts "/base"
        (.okWith (.arr [{ run := some "sometimes", name := some "a" }])) = ⟨.ok (), [], []⟩
    ∧ runCustomNavigateScripts "/base"
        (.okWith (.arr [{ run := some "sometimes", name := some "a" }])) = ⟨.ok (), [], []⟩ :=
  unrecognized_run_silently_skipped "/base" { run := some "sometimes", name := some "a" }
    "sometimes" rfl (by decide) (by decide) (by decide)

/-- Counterexample to C4 as stated: with both `url` and `name` present, the
raised error's message is the source's text, which has backticks around the
property names and a trailing period — not the claim's quoted message
text. -/
theorem source_validation_message_counterexample :
    addScriptElement "/base" { url := some "https://example.com/x.js", name := some "x" }
      = .error ⟨"Custom script cannot have both `url` and `name`."⟩
    ∧ "Custom script cannot have both `url` and `name`."
        ≠ "Custom script cannot have both url and name"
    ∧ addScriptElement "/base" {}
        = .error ⟨"Custom script has neither a `url` nor a `name` property."⟩
    ∧ "Custom script has neither a `url` nor a `name` property."
        ≠ "Custom script has neither a url nor a name property" :=
  ⟨rfl, by decide, rfl, by decide⟩

/-- C4 (amended): both executors raise an error exactly when the entry has
both `url` and `name`, or neither of them; in the first case the message is
the source's both-properties text and in the second the source's
neither-property text (each with backticked property names and a trailing
period); every such error is a `ScriptSourceError`; an entry with exactly
one of the two source fields raises no error. For the dynamic executor the
error shows up in the settlement of the per-entry promise
(`ExecStep.continuation`), since an async function never throws
synchronously. -/
theorem source_validation_amended (baseURL : String) (c : CustomScript) :
    ((∃ e, addScriptElement baseURL c = .error e) ↔
      (c.url.isSome ∧ c.name.isSome) ∨ (c.url = none ∧ c.name = none))
    ∧ ((∃ e, (importScript baseURL c).continuation = .error e) ↔
      (c.url.isSome ∧ c.name.isSome) ∨ (c.url = none ∧ c.name = none))
    ∧ (c.url.isSome → c.name.isSome →
        addScriptElement baseURL c = .error ⟨bothMessage⟩
        ∧ (importScript baseURL c).continuation = .error ⟨bothMessage⟩)
    ∧ (c.url = none → c.name = none →
        addScriptElement baseURL c = .error ⟨neitherMessage⟩
        ∧ (importScript baseURL c).continuation = .error ⟨neitherMessage⟩)
    ∧ (∀ e, addScriptElement baseURL c = .error e → IsScriptSourceError e)
    ∧ (∀ e, (importScript baseURL c).continuation = .error e → IsScriptSourceError e) := by
  cases hu : c.url <;> cases hn : c.name <;> cases hi : c.integrity <;>
    simp [addScriptElement, importScript, ExecStep.continuation, IsScriptSourceError,
      hu, hn, hi]

/-- Witness for `source_validation_amended`: an entry with both `url` and
`name` makes both executors fail with the both-properties message. -/
theorem source_validation_amended_witness :
    addScriptElement "/base" { url := some "u", name := some "x" } = .error ⟨bothMessage⟩
    ∧ (importScript "/base" { url := some "u", name := some "x" }).continuation
        = .error ⟨bothMessage⟩ :=
  (source_validation_amended "/base" { url := some "u", name := some "x" }).2.2.1 rfl rfl

/-- Characterization of the JavaScript `slice(-3) === '.js'` test: it holds
exactly when the char sequence `.js` is a suffix of the name. -/
theorem sliceLast3_eq_js_iff (s : String) :
    sliceLast3 s = ".js" ↔ ".js".data <:+ s.data := by
  rw [List.suffix_iff_eq_drop]
  constructor
  · intro h
    exact (congrArg String.data h).symm
  · intro h
    exact String.ext h.symm

/-- Resolving `['', 'custom-scripts', x]` against a base URL concatenates the
base path, the fixed segment and the final component. -/
theorem resolveAbsoluteUrl_customScripts (baseURL x : String) :
    resolveAbsoluteUrl baseURL ["", "custom-scripts", x] = baseURL ++ "/custom-scripts/" ++ x := by
  rw [String.append_assoc]
  exact rfl

/-- C6: the resolved local URL is the configured base path joined with the
fixed `custom-scripts` segment and the name, with `.js` appended exactly when
the name does not already end in `.js`; in particular `foo` and `foo.js`
resolve to the same URL ending in `/custom-scripts/foo.js`, with no double
suffix. -/
theorem urlGivenScriptName_spec (baseURL nm : String) :
    urlGivenScriptName baseURL nm
      = baseURL ++ "/custom-scripts/"
          ++ (if ".js".data.isSuffixOf nm.data then nm else nm ++ ".js")
    ∧ urlGivenScriptName baseURL "foo" = baseURL ++ "/custom-scripts/foo.js"
    ∧ urlGivenScriptName baseURL "foo.js" = baseURL ++ "/custom-scripts/foo.js" := by
  refine ⟨?_, rfl, rfl⟩
  by_cases h : sliceLast3 nm = ".js"
  · have hb : ".js".data.isSuffixOf nm.data = true := by
      rw [List.isSuffixOf_iff_suffix]
      exact (sliceLast3_eq_js_iff nm).1 h
    rw [hb]
    simp only [urlGivenScriptName, if_neg (not_not_intro h), if_pos rfl]
    exact resolveAbsoluteUrl_customScripts baseURL nm
  · have hb : ".js".data.isSuffixOf nm.data = false := by
      rw [Bool.eq_false_iff]
      intro hsuf
      exact h ((sliceLast3_eq_js_iff nm).2 (List.isSuffixOf_iff_suffix.1 hsuf))
    rw [hb]
    simp only [urlGivenScriptName, if_pos h, Bool.false_eq_true, if_false]
    exact resolveAbsoluteUrl_customScripts baseURL (nm ++ ".js")

/-! ## Structure of `forEach` dispatch -/

/-- Function `importScript` always hands `forEach` a promise: an async
function never throws synchronously. -/
theorem importScript_isPromise (baseURL : String) (c : CustomScript) :
    ∃ s r, importScript baseURL c = .promise s r := by
  cases hu : c.url <;> cases hn : c.name <;> simp [importScript, hu, hn]

/-- Nothing `importScript` does synchronously, before handing control back to
`forEach`, is a completion event. -/
theorem importScript_startEvents_not_completed (baseURL : String) (c : CustomScript) :
    (importScript baseURL c).startEvents.any Event.isImportCompleted = false := by
  cases hu : c.url <;> cases hn : c.name <;>
    simp [importScript, hu, hn, ExecStep.startEvents, Event.isImportCompleted]

/-- Running `forEach` with an executor that always returns a promise: the
loop discards every promise, so the surrounding dispatch resolves
successfully having observed only the synchronous prefixes, in order, and
every per-entry continuation is left pending, in order. -/
theorem forEachJS_promise_all (f : CustomScript → ExecStep) (l : List CustomScript)
    (h : ∀ c ∈ l, ∃ s r, f c = .promise s r) :
    forEachJS f l =
      ⟨.ok (), l.flatMap fun c => (f c).startEvents, l.map fun c => (f c).continuation⟩ := by
  induction l with
  | nil => rfl
  | cons a t ih =>
    obtain ⟨s, r, ha⟩ := h a (List.mem_cons_self a t)
    have ht := ih fun c hc => h c (List.mem_cons_of_mem a hc)
    simp [forEachJS, ha, ht, ExecStep.startEvents, ExecStep.continuation]

/-- Running `forEach` with a synchronous executor over a list whose prefix
succeeds and whose next element throws: the throw propagates out of
`forEach` (rejecting the dispatch), only the prefix's effects happened, and
the elements after the throwing one are never executed. -/
theorem forEachJS_sync_error_at (f : CustomScript → ExecStep) (l₁ : List CustomScript)
    (c : CustomScript) (l₂ : List CustomScript) (e : Err)
    (h₁ : ∀ c' ∈ l₁, ∃ evs, f c' = .sync (.ok evs))
    (hc : f c = .sync (.error e)) :
    forEachJS f (l₁ ++ c :: l₂) =
      ⟨.error e, l₁.flatMap fun c' => (f c').startEvents, []⟩ := by
  induction l₁ with
  | nil => simp [forEachJS, hc]
  | cons a t ih =>
    obtain ⟨evs, ha⟩ := h₁ a (List.mem_cons_self a t)
    have ht := ih fun c' hc' => h₁ c' (List.mem_cons_of_mem a hc')
    simp [forEachJS, ha, ht, ExecStep.startEvents]

/-- A concatenation of event lists none of which holds a completion holds no
completion. -/
theorem flatMap_any_isImportCompleted_false {α : Type} (l : List α) (g : α → List Event)
    (h : ∀ x ∈ l, (g x).any Event.isImportCompleted = false) :
    (l.flatMap g).any Event.isImportCompleted = false := by
  induction l with
  | nil => rfl
  | cons a t ih =>
    simp only [List.flatMap_cons, List.any_append, h a (List.mem_cons_self a t),
      ih fun x hx => h x (List.mem_cons_of_mem a hx), Bool.or_self]

/-- Counterexample to C2: a manifest with one `on-navigate` entry. The
dispatch resolves successfully having only initiated the entry's dynamic
import; the completion of the import is not among the events preceding the
resolution — it sits in the discarded, still-pending continuation. So the
entry's load-and-run does not complete before the operation resolves. -/
theorem navigate_not_awaited_counterexample :
    runCustomNavigateScripts "/base" (.okWith (.arr [{ run := some "on-navigate", name := some "b" }]))
      = ⟨.ok (), [.importStarted "/base/custom-scripts/b.js"],
          [.ok [.importCompleted "/base/custom-scripts/b.js"]]⟩
    ∧ Event.importCompleted "/base/custom-scripts/b.js"
        ∉ (runCustomNavigateScripts "/base"
            (.okWith (.arr [{ run := some "on-navigate", name := some "b" }]))).events :=
  ⟨rfl, by decide⟩

/-- C2 (amended): `runCustomNavigateScripts` selects the entries passing
`shouldRunOnNavigate` and synchronously starts each one's dynamic execution
in manifest order, but does not await them: `forEach` discards every
per-entry promise, so the operation resolves successfully with every entry's
load-and-run still pending (in manifest order), and no dynamic import
completes before the operation resolves. -/
theorem navigate_dispatch_not_awaited (baseURL : String) (m : List CustomScript) :
    (runCustomNavigateScripts baseURL (.okWith (.arr m))).result = .ok ()
    ∧ (runCustomNavigateScripts baseURL (.okWith (.arr m))).events
        = ((m.filter shouldRunOnNavigate).flatMap fun c => (importScript baseURL c).startEvents)
    ∧ (runCustomNavigateScripts baseURL (.okWith (.arr m))).pending
        = ((m.filter shouldRunOnNavigate).map fun c => (importScript baseURL c).continuation)
    ∧ (runCustomNavigateScripts baseURL (.okWith (.arr m))).events.any Event.isImportCompleted
        = false := by
  have h : runCustomNavigateScripts baseURL (.okWith (.arr m)) =
      ⟨.ok (), (m.filter shouldRunOnNavigate).flatMap fun c => (importScript baseURL c).startEvents,
        (m.filter shouldRunOnNavigate).map fun c => (importScript baseURL c).continuation⟩ :=
    forEachJS_promise_all (importScript baseURL) (m.filter shouldRunOnNavigate)
      fun c _ => importScript_isPromise baseURL c
  rw [h]
  exact ⟨rfl, rfl, rfl,
    flatMap_any_isImportCompleted_false _ _
      fun c _ => importScript_startEvents_not_completed baseURL c⟩

/-- Counterexample to C3: a manifest whose first navigate-time entry has both
`url` and `name` (a `ScriptSourceError`) followed by a valid entry. The
dispatch call resolves successfully — the entry's error is confined to the
discarded per-entry promise, never surfaced to the caller — and the
remaining entry is still dispatched (its import is initiated), so the first
raising entry aborts nothing. -/
theorem error_not_surfaced_counterexample :
    (runCustomNavigateScripts "/base"
        (.okWith (.arr [{ run := some "on-navigate", url := some "u", name := some "x" },
                        { run := some "on-navigate", name := some "g" }]))).result = .ok ()
    ∧ (runCustomNavigateScripts "/base"
        (.okWith (.arr [{ run := some "on-navigate", url := some "u", name := some "x" },
                        { run := some "on-navigate", name := some "g" }]))).events
        = [.importStarted "/base/custom-scripts/g.js"]
    ∧ (runCustomNavigateScripts "/base"
        (.okWith (.arr [{ run := some "on-navigate", url := some "u", name := some "x" },
                        { run := some "on-navigate", name := some "g" }]))).pending
        = [.error ⟨bothMessage⟩, .ok [.importCompleted "/base/custom-scripts/g.js"]] :=
  ⟨rfl, rfl, rfl⟩

/-- C3 (amended): the two dispatch paths differ. In the load path, the first
entry on which `addScriptElement` throws rejects the dispatch call with that
very error and aborts the dispatch of all remaining entries (only the
successful prefix's elements were appended, nothing is pending). In the
navigate path, a per-entry error only rejects the per-entry promise that
`forEach` discarded: the dispatch call always resolves successfully and no
entry error is surfaced to it. -/
theorem error_propagation_amended (baseURL : String) (m : List CustomScript)
    (l₁ : List CustomScript) (c : CustomScript) (l₂ : List CustomScript) (e : Err)
    (hfilter : m.filter shouldRunOnPageLoad = l₁ ++ c :: l₂)
    (h₁ : ∀ c' ∈ l₁, ∃ el, addScriptElement baseURL c' = .ok el)
    (hc : addScriptElement baseURL c = .error e) :
    runCustomPageLoadScripts baseURL (.okWith (.arr m)) =
      ⟨.error e, l₁.flatMap fun c' => (addScriptElementStep baseURL c').startEvents, []⟩
    ∧ (runCustomNavigateScripts baseURL (.okWith (.arr m))).result = .ok () := by
  constructor
  · show forEachJS (addScriptElementStep baseURL) (m.filter shouldRunOnPageLoad) = _
    rw [hfilter]
    refine forEachJS_sync_error_at _ _ _ _ _ ?_ ?_
    · intro c' hc'
      obtain ⟨el, hel⟩ := h₁ c' hc'
      exact ⟨[.appended el], by simp [addScriptElementStep, hel, Except.map]⟩
    · simp [addScriptElementStep, hc, Except.map]
  · have h := forEachJS_promise_all (importScript baseURL) (m.filter shouldRunOnNavigate)
      fun c' _ => importScript_isPromise baseURL c'
    rw [show runCustomNavigateScripts baseURL (.okWith (.arr m))
        = forEachJS (importScript baseURL) (m.filter shouldRunOnNavigate) from rfl, h]

/-- Witness for `error_propagation_amended`: a single load-time entry with
both `url` and `name` rejects the page-load dispatch with the
both-properties error, with nothing executed, while the navigate dispatch of
the same manifest resolves successfully. -/
theorem error_propagation_amended_witness :
    runCustomPageLoadScripts "/base" (.okWith (.arr [{ url := some "u", name := some "x" }]))
      = ⟨.error ⟨bothMessage⟩, [], []⟩
    ∧ (runCustomNavigateScripts "/base"
        (.okWith (.arr [{ url := some "u", name := some "x" }]))).result = .ok () :=
  error_propagation_amended "/base" [{ url := some "u", name := some "x" }]
    [] { url := some "u", name := some "x" } [] ⟨bothMessage⟩ rfl
    (fun c' hc' => absurd hc' (List.not_mem_nil c')) rfl

end CustomScripts
